import Mathlib

/-!
Verification of the coloring-pages automation scripts.

Shallow embedding of the five Python scripts:
  - scripts/remove_background.py        (pixel transformation)
  - scripts/kaggle/check_status.py      (status reporter)
  - scripts/kaggle/download_output.py   (output downloader)
  - scripts/kaggle/run_notebook.py      (run submitter)
  - scripts/kaggle/upload_dataset.py    (dataset uploader)

Python strings are modelled as `List Char`; machine-level effects
(subprocess, filesystem, network) are modelled by explicit environment
records whose boolean/optional fields say which external operation
succeeds, and each script's `main` is a pure function from its argument
vector, environment variables and effect environment to an outcome
record (exit code, files written, messages emitted, temp dirs
created/removed).
-/

/-! ## remove_background.py -/

/-- An RGBA pixel as PIL delivers it after `convert("RGBA")`. -/
structure Pixel where
  r : Nat
  g : Nat
  b : Nat
  a : Nat
deriving DecidableEq

/-- The per-pixel body of `remove_background`:
`if item[0] > 255 - tolerance and item[1] > 255 - tolerance and item[2] > 255 - tolerance`
replaces the pixel with `(255, 255, 255, 0)`, else keeps it. -/
def removeBgPixel (tolerance : Nat) (p : Pixel) : Pixel :=
  if 255 - tolerance < p.r ∧ 255 - tolerance < p.g ∧ 255 - tolerance < p.b then
    ⟨255, 255, 255, 0⟩
  else
    p

/-- Function `remove_background` over the whole pixel sequence (`img.getdata()` /
`img.putdata(newData)`). -/
def remove_background (tolerance : Nat) (img : List Pixel) : List Pixel :=
  img.map (removeBgPixel tolerance)

/-- The script calls `remove_background(target_file, temp_output)` with the
default `tolerance=50`. -/
def scriptTolerance : Nat := 50

/-! ## String helpers shared by the kaggle scripts -/

/-- Python `str.split(sep)` for a one-character separator, on `List Char`.
`pySplit sep l` is never empty and joining its parts with `sep` gives back
`l`. -/
def pySplit (sep : Char) : List Char → List (List Char)
  | [] => [[]]
  | c :: cs =>
    let r := pySplit sep cs
    if c = sep then [] :: r else (c :: r.headI) :: r.tail

/-- Python `sep.join(parts)` for a one-character separator. -/
def pyJoin (sep : Char) : List (List Char) → List Char
  | [] => []
  | [x] => x
  | x :: xs => x ++ sep :: pyJoin sep xs

/-- Python's `str` whitespace for `strip()` (space, tab, LF, CR, VT, FF). -/
def pyIsSpace (c : Char) : Bool :=
  c = ' ' || c = '\t' || c = '\n' || c = '\r' || c.toNat = 11 || c.toNat = 12

/-- Python `str.strip()`: drop whitespace from both ends. -/
def pyStrip (l : List Char) : List Char :=
  ((l.dropWhile pyIsSpace).reverse.dropWhile pyIsSpace).reverse

/-- Python `str.lower()` on one character; the titles handled by these
scripts are ASCII, where `Char.toLower` (A–Z ↦ a–z) agrees with Python. -/
def pyLower (c : Char) : Char := Char.toLower c

/-- One-character `str.replace(old, new)`, pointwise. -/
def pyRepl (old new c : Char) : Char := if c = old then new else c

/-! ## upload_dataset.py : the slug computation

`dataset_slug = dataset_title.lower().replace(' ', '-').replace('_', '-')[:50]`
-/

/-- The uploader's slug computation, operation by operation in the same
order as the source line. -/
def dataset_slug (title : List Char) : List Char :=
  ((((title.map pyLower).map (pyRepl ' ' '-')).map (pyRepl '_' '-')).take 50)

/-- Modelled from the spec's words, for comparison with `dataset_slug`:
"lower-cased, spaces/underscores to hyphens, truncated to 50 characters". -/
def slugSpec (title : List Char) : List Char :=
  (title.map (fun c => if c = ' ' ∨ c = '_' then '-' else pyLower c)).take 50

/-! ## run-id → notebook slug

`notebook_slug = run_id.split('-')[0] if '-' in run_id else run_id`
(line 45 of download_output.py and, inline, line 36 of check_status.py).
-/

/-- The shared slug-derivation expression of the downloader and the status
checker. -/
def notebook_slug (run_id : List Char) : List Char :=
  if '-' ∈ run_id then (pySplit '-' run_id).headI else run_id

/-! ## download_output.py : filename classification

```
basename = os.path.splitext(file)[0]
parts = basename.split('-')
if len(parts) >= 2:
    category = parts[0].strip()
    keyword = '-'.join(parts[1:]).strip()
else:
    category = 'uncategorized'
    keyword = basename.strip()
```
-/

/-- Python `os.path.splitext(file)[0]` for a path without directory separators:
cut at the last `'.'` unless every character before it is a dot (so
`"rose.png" ↦ "rose"`, `".bashrc" ↦ ".bashrc"`). -/
def splitextRoot (f : List Char) : List Char :=
  match f.reverse.findIdx? (· = '.') with
  | none => f
  | some k =>
    let i := f.length - 1 - k
    if (f.take i).any (· ≠ '.') then f.take i else f

/-- The category/keyword derivation of the downloader, from the basename. -/
def classify (basename : List Char) : List Char × List Char :=
  let parts := pySplit '-' basename
  if 2 ≤ parts.length then
    (pyStrip parts.headI, pyStrip (pyJoin '-' parts.tail))
  else
    ("uncategorized".data, pyStrip basename)

/-- Python `file.lower().endswith(('.png', '.jpg', '.jpeg', '.webp'))`. -/
def isImageFile (f : List Char) : Bool :=
  [".png".data, ".jpg".data, ".jpeg".data, ".webp".data].any
    (fun e => e.isSuffixOf (f.map pyLower))

/-- One entry of the downloader's `downloaded_files` list: filename plus
the category/keyword inferred from the filename alone. -/
structure FileRec where
  filename : List Char
  category : List Char
  keyword  : List Char
deriving DecidableEq

/-- The record the downloader builds for one image file. -/
def mkRecord (file : List Char) : FileRec :=
  let ck := classify (splitextRoot file)
  ⟨file, ck.1, ck.2⟩

/-- The record of the synthesized fallback file (line 129). -/
def placeholderRec : FileRec :=
  ⟨"placeholder-rose.png".data, "nature".data, "rose".data⟩

/-! ## Messages on the error stream, abstracted to tags -/

/-- The distinct messages the scripts write to stderr (dynamic parts such
as exception text abstracted away). -/
inductive ErrMsg where
  | missingArgs
  | usageLine
  | missingUsername
  | missingCreds
  | missingRunId
  | downloadWarn
  | cliWarn
  | outerErr
  | uncaughtErr
deriving DecidableEq

/-! ## download_output.py : whole-script model -/

/-- Effect environment of one downloader invocation: which external
operations succeed. `cliResult = none` models `subprocess.run` raising
(CLI binary absent, or timeout); `some rc` models the CLI exiting with
code `rc`. `cliFiles`/`apiFiles` are the files present in the temp dir
after the respective retrieval succeeded (zip extraction abstracted).
`copyOk f` says whether `shutil.copy2` of file `f` into the destination
succeeds. -/
structure DlEnv where
  mkdirOk : Bool
  credWriteOk : Bool
  cliResult : Option Nat
  cliFiles : List (List Char)
  apiOk : Bool
  apiFiles : List (List Char)
  copyOk : List Char → Bool

/-- Observable outcome of one downloader invocation. `destFiles` are the
filenames this run wrote into the destination directory, in order. -/
structure DlOutcome where
  exitCode : Nat
  credsWritten : Bool
  destFiles : List (List Char)
  records : List FileRec
  stderr : List ErrMsg
  tempsCreated : Nat
  tempsRemoved : Nat

/-- The downloader's copy loop (lines 92–117): for each image file,
record and copy; a failing `shutil.copy2` raises, aborting the loop with
the copies made so far already on disk. Returns (files written to dest,
records, loop completed without raising). -/
def processFiles (copyOk : List Char → Bool) :
    List (List Char) → List (List Char) × List FileRec × Bool
  | [] => ([], [], true)
  | f :: fs =>
    if isImageFile f then
      if copyOk f then
        let r := processFiles copyOk fs
        (f :: r.1, mkRecord f :: r.2.1, r.2.2)
      else ([], [], false)
    else processFiles copyOk fs

/-- The image files sitting in the temp dir after the inner try of the
downloader (lines 51–86): the CLI's extracted output when the CLI exited
0, the API fallback's extracted output when the CLI exited non-zero and
the API call succeeded, nothing otherwise (including when
`subprocess.run` itself raised, in which case the API fallback is never
reached). -/
def dlTempFiles (env : DlEnv) : List (List Char) :=
  match env.cliResult with
  | none => []
  | some rc =>
    if rc = 0 then env.cliFiles
    else if env.apiOk then env.apiFiles else []

/-- The warning the inner try prints when the download degrades to the
placeholder path. -/
def dlWarn (env : DlEnv) : List ErrMsg :=
  match env.cliResult with
  | none => [.downloadWarn]
  | some rc =>
    if rc = 0 then []
    else if env.apiOk then [] else [.downloadWarn]

/-- Function `main` of download_output.py. `argv` includes the script name at
index 0; `user`/`key` are the `KAGGLE_USERNAME`/`KAGGLE_KEY` environment
variables (empty list = unset). -/
def download_main (argv : List (List Char)) (user key : List Char)
    (env : DlEnv) : DlOutcome :=
  if argv.length < 3 then
    ⟨1, false, [], [], [.missingArgs], 0, 0⟩
  else if user = [] then
    ⟨1, false, [], [], [.missingUsername], 0, 0⟩
  else if env.mkdirOk = false then
    -- os.makedirs is outside the try: an uncaught OSError ends the
    -- interpreter with a traceback and exit code 1
    ⟨1, false, [], [], [.uncaughtErr], 0, 0⟩
  else if env.credWriteOk = false then
    -- writing kaggle.json is inside the try: outer handler, exit 1
    ⟨1, false, [], [], [.outerErr], 0, 0⟩
  else
    -- temp dir created (line 49); inner try: CLI, then API fallback,
    -- with both timeout and any exception caught as a warning
    let warn := dlWarn env
    let r := processFiles env.copyOk (dlTempFiles env)
    if r.2.2 then
      -- loop finished; rmtree (line 120); placeholder if nothing found
      if r.2.1.isEmpty then
        ⟨0, true, r.1 ++ ["placeholder-rose.png".data], [placeholderRec],
          warn, 1, 1⟩
      else
        ⟨0, true, r.1, r.2.1, warn, 1, 1⟩
    else
      -- a copy raised before the rmtree: outer handler, exit 1, temp dir
      -- never removed
      ⟨1, true, r.1, [], warn ++ [.outerErr], 1, 0⟩

/-! ## upload_dataset.py : whole-script model -/

/-- Effect environment of one uploader invocation. `csvCopyOk` models
`shutil.copy(csv_path, …)` (false e.g. when the CSV does not exist);
`cliResult = none` models `subprocess.run` raising (CLI binary absent);
`apiAuthOk`/`apiCreateOk` model `api.authenticate()` and
`api.dataset_create_new(...)` on the fallback path. -/
structure UpEnv where
  credWriteOk : Bool
  csvCopyOk : Bool
  cliResult : Option Nat
  apiAuthOk : Bool
  apiCreateOk : Bool

/-- Observable outcome of one uploader invocation. `stagedCsv` counts the
staged CSV copies written into temp folders. -/
structure UpOutcome where
  exitCode : Nat
  credsWritten : Bool
  stagedCsv : Nat
  publishedUrl : Option (List Char)
  stderr : List ErrMsg
  tempsCreated : Nat
  tempsRemoved : Nat

/-- Function `main` of upload_dataset.py. -/
def upload_main (argv : List (List Char)) (user key : List Char)
    (env : UpEnv) : UpOutcome :=
  if argv.length < 3 then
    ⟨1, false, 0, none, [.missingArgs, .usageLine], 0, 0⟩
  else if user = [] ∨ key = [] then
    ⟨1, false, 0, none, [.missingCreds], 0, 0⟩
  else
    let slug := dataset_slug (argv.getD 2 [])
    let url := "https://www.kaggle.com/datasets/".data ++ user ++ '/' :: slug
    if env.credWriteOk = false then
      -- kaggle.json write is inside the try: outer handler, exit 1
      ⟨1, false, 0, none, [.outerErr], 0, 0⟩
    else if env.csvCopyOk = false then
      -- temp dir created, then shutil.copy raised: outer handler, exit 1,
      -- temp dir never removed
      ⟨1, true, 0, none, [.outerErr], 1, 0⟩
    else
      match env.cliResult with
      | none =>
        -- subprocess.run raised before the rmtree: temp dir never removed
        ⟨1, true, 1, none, [.outerErr], 1, 0⟩
      | some rc =>
        -- rmtree of the first temp dir (line 183) precedes the rc test
        if rc = 0 then
          ⟨0, true, 1, some url, [], 1, 1⟩
        else if env.apiAuthOk = false then
          -- authenticate raised before the second mkdtemp
          ⟨1, true, 1, none, [.cliWarn, .outerErr], 1, 1⟩
        else if env.apiCreateOk = false then
          -- second temp dir staged, dataset_create_new raised before its
          -- rmtree: second temp dir never removed
          ⟨1, true, 2, none, [.cliWarn, .outerErr], 2, 1⟩
        else
          ⟨0, true, 2, some url, [.cliWarn], 2, 2⟩

/-! ## run_notebook.py : whole-script model -/

/-- Python `str(int(t))` for a nonnegative epoch time in whole seconds. -/
def pyStrNat (n : Nat) : List Char := (Nat.repr n).data

/-- Observable outcome of one run-submitter invocation. -/
structure RnOutcome where
  exitCode : Nat
  credsWritten : Bool
  runId : Option (List Char)
  stdout : List (List Char)
  stderr : List ErrMsg

/-- Function `main` of run_notebook.py; `now` is `int(time.time())`, the current
epoch time in whole seconds. -/
def run_notebook_main (argv : List (List Char)) (user key : List Char)
    (now : Nat) (credWriteOk : Bool) : RnOutcome :=
  if argv.length < 2 then
    ⟨1, false, none, [], [.missingArgs, .usageLine]⟩
  else if user = [] ∨ key = [] then
    ⟨1, false, none, [], [.missingCreds]⟩
  else if credWriteOk = false then
    -- the kaggle.json write is before the try: uncaught exception
    ⟨1, false, none, [], [.uncaughtErr]⟩
  else
    let slug := argv.getD 1 []
    let run_id := slug ++ '-' :: pyStrNat now
    let ds := if 2 < argv.length then argv.getD 2 [] else "None".data
    ⟨0, true, some run_id,
      ["Run ID: ".data ++ run_id,
       "Run URL: https://www.kaggle.com/code/".data ++ user ++ '/' :: slug,
       "Dataset: ".data ++ ds,
       "STATUS: manual_execution_required".data],
      []⟩

/-! ## check_status.py : whole-script model -/

/-- Observable outcome of one status-checker invocation. `remoteCalls`
counts contacts to any remote service (the script performs none). -/
structure CsOutcome where
  exitCode : Nat
  stdout : List (List Char)
  stderr : List ErrMsg
  remoteCalls : Nat

/-- Function `main` of check_status.py. -/
def check_status_main (argv : List (List Char)) (user : List Char) :
    CsOutcome :=
  if argv.length < 2 then
    ⟨1, [], [.missingRunId], 0⟩
  else
    let rid := argv.getD 1 []
    ⟨0,
      ["Status: completed".data,
       "Progress: 100".data,
       "Note: Automatic status checking is not available. Please verify notebook completion on Kaggle.".data,
       "Run ID: ".data ++ rid,
       "Output URL: https://www.kaggle.com/code/".data ++ user ++ '/'
         :: notebook_slug rid],
      [], 0⟩

/-! ## Basic lemmas about the string helpers -/

theorem pySplit_ne_nil (sep : Char) (l : List Char) : pySplit sep l ≠ [] := by
  cases l with
  | nil => simp [pySplit]
  | cons c cs =>
    simp only [pySplit]
    split <;> simp

theorem pySplit_headI (sep : Char) (l : List Char) :
    (pySplit sep l).headI = l.takeWhile (· ≠ sep) := by
  induction l with
  | nil => simp [pySplit]
  | cons c cs ih =>
    by_cases h : c = sep
    · simp [pySplit, h, List.takeWhile_cons]
    · simp [pySplit, h, List.takeWhile_cons, ih]

theorem pyJoin_pySplit (sep : Char) (l : List Char) :
    pyJoin sep (pySplit sep l) = l := by
  induction l with
  | nil => simp [pySplit, pyJoin]
  | cons c cs ih =>
    simp only [pySplit]
    by_cases h : c = sep
    · subst h
      simp only [if_pos rfl]
      rcases hr : pySplit c cs with _ | ⟨x, xs⟩
      · exact absurd hr (pySplit_ne_nil c cs)
      · rw [hr] at ih
        simp [pyJoin, ih]
    · simp only [if_neg h]
      rcases hr : pySplit sep cs with _ | ⟨x, xs⟩
      · exact absurd hr (pySplit_ne_nil sep cs)
      · rw [hr] at ih
        cases xs with
        | nil => simpa [pyJoin] using congrArg (c :: ·) ih
        | cons y ys =>
          simp only [List.headI, List.tail]
          simp only [pyJoin] at ih ⊢
          rw [List.cons_append, ih]

theorem pySplit_of_not_mem {sep : Char} {l : List Char} (h : sep ∉ l) :
    pySplit sep l = [l] := by
  induction l with
  | nil => simp [pySplit]
  | cons c cs ih =>
    simp only [List.mem_cons, not_or] at h
    have hcs := ih h.2
    simp [pySplit, hcs, Ne.symm h.1, fun hc : c = sep => h.1 hc.symm]

theorem two_le_pySplit_length {sep : Char} {l : List Char} (h : sep ∈ l) :
    2 ≤ (pySplit sep l).length := by
  induction l with
  | nil => cases h
  | cons c cs ih =>
    simp only [pySplit]
    by_cases hc : c = sep
    · simp only [if_pos hc, List.length_cons]
      have := pySplit_ne_nil sep cs
      have : 1 ≤ (pySplit sep cs).length := by
        cases hl : pySplit sep cs with
        | nil => exact absurd hl this
        | cons x xs => simp
      omega
    · have hmem : sep ∈ cs := by
        rcases List.mem_cons.mp h with h1 | h2
        · exact absurd h1.symm hc
        · exact h2
      have h2 := ih hmem
      simp only [if_neg hc, List.length_cons]
      have hne := pySplit_ne_nil sep cs
      cases hl : pySplit sep cs with
      | nil => exact absurd hl hne
      | cons x xs =>
        rw [hl] at h2
        simp only [List.length_cons] at h2 ⊢
        simp only [List.tail_cons]
        omega

theorem pyJoin_tail_pySplit {sep : Char} {l : List Char} (h : sep ∈ l) :
    pyJoin sep (pySplit sep l).tail
      = l.drop ((l.takeWhile (· ≠ sep)).length + 1) := by
  induction l with
  | nil => cases h
  | cons c cs ih =>
    by_cases hc : c = sep
    · subst hc
      simp only [pySplit, if_pos rfl, List.tail_cons]
      have : (c ≠ c) = False := by simp
      simp [List.takeWhile, pyJoin_pySplit]
    · have hmem : sep ∈ cs := by
        rcases List.mem_cons.mp h with h1 | h2
        · exact absurd h1.symm hc
        · exact h2
      have hrec := ih hmem
      simp only [pySplit, if_neg hc]
      have hne := pySplit_ne_nil sep cs
      cases hl : pySplit sep cs with
      | nil => exact absurd hl hne
      | cons x xs =>
        rw [hl] at hrec
        simp only [List.tail_cons] at hrec ⊢
        have hck : (c ≠ sep) = true := by simp [hc]
        simp [List.takeWhile, hck, hrec]

/-! ## Character lemmas for the slug computation -/

theorem toNat_ofNat_of_valid {n : Nat} (h : n.isValidChar) :
    (Char.ofNat n).toNat = n := by
  simp only [Char.ofNat]
  rw [dif_pos h]
  rfl

theorem ne_of_toNat_ne {a b : Char} (h : a.toNat ≠ b.toNat) : a ≠ b :=
  fun he => h (he ▸ rfl)

theorem toLower_cases (c : Char) :
    (65 ≤ c.toNat ∧ c.toNat ≤ 90 ∧ (Char.toLower c).toNat = c.toNat + 32)
    ∨ (¬(65 ≤ c.toNat ∧ c.toNat ≤ 90) ∧ Char.toLower c = c) := by
  by_cases h : 65 ≤ c.toNat ∧ c.toNat ≤ 90
  · left
    refine ⟨h.1, h.2, ?_⟩
    have hv : (c.toNat + 32).isValidChar := Or.inl (by omega)
    simp only [Char.toLower]
    rw [if_pos ⟨h.1, h.2⟩]
    exact toNat_ofNat_of_valid hv
  · right
    refine ⟨h, ?_⟩
    simp only [Char.toLower]
    rw [if_neg (by exact fun hc => h ⟨hc.1, hc.2⟩)]

theorem pyLower_not_upper (c : Char) :
    ¬(65 ≤ (pyLower c).toNat ∧ (pyLower c).toNat ≤ 90) := by
  rcases toLower_cases c with ⟨_, _, h⟩ | ⟨h, heq⟩
  · simp only [pyLower]
    omega
  · simp only [pyLower, heq]
    exact h

theorem pyLower_ne_space {c : Char} (h : c ≠ ' ') : pyLower c ≠ ' ' := by
  rcases toLower_cases c with ⟨h65, h90, hl⟩ | ⟨_, heq⟩
  · refine ne_of_toNat_ne ?_
    have hsp : (' ').toNat = 32 := rfl
    simp only [pyLower]
    omega
  · simpa only [pyLower, heq] using h

theorem pyLower_ne_underscore {c : Char} (h : c ≠ '_') : pyLower c ≠ '_' := by
  rcases toLower_cases c with ⟨h65, h90, hl⟩ | ⟨_, heq⟩
  · refine ne_of_toNat_ne ?_
    have hus : ('_').toNat = 95 := rfl
    simp only [pyLower]
    omega
  · simpa only [pyLower, heq] using h

/-- The uploader's three chained string operations act on each character
like the spec's single description. -/
theorem slugChar_eq (c : Char) :
    pyRepl '_' '-' (pyRepl ' ' '-' (pyLower c))
      = if c = ' ' ∨ c = '_' then '-' else pyLower c := by
  by_cases hs : c = ' '
  · subst hs
    simp only [if_pos (Or.inl rfl)]
    decide
  · by_cases hu : c = '_'
    · subst hu
      simp only [if_pos (Or.inr rfl)]
      decide
    · rw [if_neg (by tauto)]
      simp only [pyRepl]
      rw [if_neg (pyLower_ne_space hs), if_neg (pyLower_ne_underscore hu)]

theorem slugChar_props (d : Char) :
    (if d = ' ' ∨ d = '_' then '-' else pyLower d) ≠ ' ' ∧
    (if d = ' ' ∨ d = '_' then '-' else pyLower d) ≠ '_' ∧
    ¬(65 ≤ (if d = ' ' ∨ d = '_' then '-' else pyLower d).toNat ∧
      (if d = ' ' ∨ d = '_' then '-' else pyLower d).toNat ≤ 90) := by
  by_cases h : d = ' ' ∨ d = '_'
  · rw [if_pos h]
    exact ⟨by decide, by decide, by decide⟩
  · rw [if_neg h]
    push_neg at h
    exact ⟨pyLower_ne_space h.1, pyLower_ne_underscore h.2, pyLower_not_upper d⟩

theorem dataset_slug_eq_slugSpec (title : List Char) :
    dataset_slug title = slugSpec title := by
  simp only [dataset_slug, slugSpec]
  congr 1
  induction title with
  | nil => rfl
  | cons c cs ih =>
    simp only [List.map_cons]
    rw [ih, slugChar_eq]

/-! ## Claim theorems -/

/-- Claim C2 counterexample. The claim reads the near-white test as
ranging over every channel of the RGBA pixel, but the code tests only
`item[0]`, `item[1]`, `item[2]`: the pixel (250, 250, 250, 100) has a
channel (alpha = 100) that is ≤ 255 − 50, yet it is not left unchanged. -/
theorem removeBg_alpha_counterexample :
    (Pixel.mk 250 250 250 100).a ≤ 255 - scriptTolerance ∧
    removeBgPixel scriptTolerance ⟨250, 250, 250, 100⟩ ≠ ⟨250, 250, 250, 100⟩ := by
  decide

/-- Claim C2 (amended: "channel" restricted to the colour channels R, G,
B). With tolerance fixed at 50: a pixel with any colour channel
≤ 255 − 50 is left unchanged; a pixel with all colour channels
> 255 − 50 becomes (255, 255, 255, 0). -/
theorem removeBgPixel_rgb_spec (p : Pixel) :
    ((p.r ≤ 255 - scriptTolerance ∨ p.g ≤ 255 - scriptTolerance ∨
        p.b ≤ 255 - scriptTolerance) →
      removeBgPixel scriptTolerance p = p) ∧
    ((255 - scriptTolerance < p.r ∧ 255 - scriptTolerance < p.g ∧
        255 - scriptTolerance < p.b) →
      removeBgPixel scriptTolerance p = ⟨255, 255, 255, 0⟩) := by
  constructor
  · intro h
    simp only [scriptTolerance] at h
    simp only [removeBgPixel, scriptTolerance]
    rw [if_neg (by omega)]
  · intro h
    simp only [scriptTolerance] at h
    simp only [removeBgPixel, scriptTolerance]
    rw [if_pos (by omega)]

theorem removeBgPixel_rgb_spec_witness :
    ((Pixel.mk 10 200 255 255).r ≤ 255 - scriptTolerance ∧
      removeBgPixel scriptTolerance ⟨10, 200, 255, 255⟩ = ⟨10, 200, 255, 255⟩) ∧
    ((255 - scriptTolerance < (Pixel.mk 210 220 230 255).r ∧
        255 - scriptTolerance < (Pixel.mk 210 220 230 255).g ∧
        255 - scriptTolerance < (Pixel.mk 210 220 230 255).b) ∧
      removeBgPixel scriptTolerance ⟨210, 220, 230, 255⟩ = ⟨255, 255, 255, 0⟩) :=
  ⟨⟨by decide, (removeBgPixel_rgb_spec ⟨10, 200, 255, 255⟩).1 (Or.inl (by decide))⟩,
   ⟨by decide, (removeBgPixel_rgb_spec ⟨210, 220, 230, 255⟩).2 (by decide)⟩⟩

/-- Claim C10. The near-white test of `remove_background` inspects only
the R, G and B channels: whenever all three exceed 255 − tolerance the
pixel is rewritten to (255, 255, 255, 0) whatever its alpha `a` was,
including already partially or fully transparent pixels. -/
theorem removeBg_ignores_alpha (r g b a : Nat)
    (hr : 255 - scriptTolerance < r) (hg : 255 - scriptTolerance < g)
    (hb : 255 - scriptTolerance < b) :
    removeBgPixel scriptTolerance ⟨r, g, b, a⟩ = ⟨255, 255, 255, 0⟩ := by
  simp only [removeBgPixel]
  rw [if_pos ⟨hr, hg, hb⟩]

theorem removeBg_ignores_alpha_witness :
    (255 - scriptTolerance < 250) ∧
    removeBgPixel scriptTolerance ⟨250, 250, 250, 0⟩ = ⟨255, 255, 255, 0⟩ :=
  ⟨by decide,
   removeBg_ignores_alpha 250 250 250 0 (by decide) (by decide) (by decide)⟩

/-- Claim C3. The uploader's computed slug equals the title lower-cased
with every space and underscore replaced by a hyphen and then truncated
to 50 characters (`slugSpec`), and every computed slug has length ≤ 50,
contains no space or underscore, and contains no upper-case (A–Z)
character. -/
theorem dataset_slug_spec (title : List Char) :
    dataset_slug title = slugSpec title ∧
    (dataset_slug title).length ≤ 50 ∧
    ∀ c ∈ dataset_slug title,
      c ≠ ' ' ∧ c ≠ '_' ∧ ¬(65 ≤ c.toNat ∧ c.toNat ≤ 90) := by
  refine ⟨dataset_slug_eq_slugSpec title, ?_, ?_⟩
  · simp only [dataset_slug]
    rw [List.length_take]
    exact min_le_left _ _
  · intro c hc
    rw [dataset_slug_eq_slugSpec] at hc
    simp only [slugSpec] at hc
    have hc' := List.mem_of_mem_take hc
    rcases List.mem_map.mp hc' with ⟨d, _, rfl⟩
    exact slugChar_props d

theorem dataset_slug_spec_witness :
    dataset_slug "THE QUICK BROWN FOX_JUMPS OVER THE LAZY DOG 0123456789 XYZ".data
      = slugSpec "THE QUICK BROWN FOX_JUMPS OVER THE LAZY DOG 0123456789 XYZ".data ∧
    (dataset_slug "THE QUICK BROWN FOX_JUMPS OVER THE LAZY DOG 0123456789 XYZ".data).length ≤ 50 ∧
    ('-' ≠ ' ' ∧ '-' ≠ '_' ∧ ¬(65 ≤ ('-').toNat ∧ ('-').toNat ≤ 90)) :=
  ⟨(dataset_slug_spec _).1,
   (dataset_slug_spec _).2.1,
   (dataset_slug_spec
      "THE QUICK BROWN FOX_JUMPS OVER THE LAZY DOG 0123456789 XYZ".data).2.2
     '-' (by decide)⟩

/-- Claim C4. The derived resource slug (the same expression in the
status checker and the downloader): for a run identifier without a
hyphen it is the identifier itself; with a hyphen it is the substring
strictly before the first hyphen. -/
theorem notebook_slug_spec (run_id : List Char) :
    ('-' ∉ run_id → notebook_slug run_id = run_id) ∧
    ('-' ∈ run_id → notebook_slug run_id = run_id.takeWhile (· ≠ '-')) := by
  constructor
  · intro h
    simp [notebook_slug, h]
  · intro h
    simp only [notebook_slug, if_pos h]
    exact pySplit_headI '-' run_id

theorem notebook_slug_spec_witness :
    ('-' ∉ "rose".data ∧ notebook_slug "rose".data = "rose".data) ∧
    ('-' ∈ "rose-1730000000".data ∧
      notebook_slug "rose-1730000000".data
        = "rose-1730000000".data.takeWhile (· ≠ '-')) :=
  ⟨⟨by decide, (notebook_slug_spec "rose".data).1 (by decide)⟩,
   ⟨by decide, (notebook_slug_spec "rose-1730000000".data).2 (by decide)⟩⟩

/-- Claim C5 counterexample. For the image file "rose.png" the basename
has no hyphen, and the recorded category is the literal 'uncategorized',
not the text of the basename before its (absent) first hyphen. -/
theorem classify_counterexample :
    (classify (splitextRoot "rose.png".data)).1
      ≠ (splitextRoot "rose.png".data).takeWhile (· ≠ '-') := by
  decide

/-- Claim C5 (amended). For every image file, with `b` the filename with
its extension stripped: if `b` contains a hyphen, the recorded category
is the text of `b` before the first hyphen and the recorded keyword the
remaining text after the first hyphen, each with surrounding whitespace
stripped; if `b` contains no hyphen, the recorded category is the fixed
string 'uncategorized' and the keyword is `b` stripped. Both are derived
from the filename alone (`classify` takes no other input). -/
theorem classify_spec (file : List Char) :
    ('-' ∈ splitextRoot file →
      classify (splitextRoot file)
        = (pyStrip ((splitextRoot file).takeWhile (· ≠ '-')),
           pyStrip ((splitextRoot file).drop
             (((splitextRoot file).takeWhile (· ≠ '-')).length + 1)))) ∧
    ('-' ∉ splitextRoot file →
      classify (splitextRoot file)
        = ("uncategorized".data, pyStrip (splitextRoot file))) := by
  constructor
  · intro h
    simp only [classify, if_pos (two_le_pySplit_length h)]
    rw [pySplit_headI, pyJoin_tail_pySplit h]
  · intro h
    simp only [classify, pySplit_of_not_mem h]
    norm_num

theorem classify_spec_witness :
    ('-' ∈ splitextRoot "nature-red rose.png".data ∧
      classify (splitextRoot "nature-red rose.png".data)
        = (pyStrip ((splitextRoot "nature-red rose.png".data).takeWhile (· ≠ '-')),
           pyStrip ((splitextRoot "nature-red rose.png".data).drop
             (((splitextRoot "nature-red rose.png".data).takeWhile (· ≠ '-')).length + 1)))) ∧
    ('-' ∉ splitextRoot "rose2.png".data ∧
      classify (splitextRoot "rose2.png".data)
        = ("uncategorized".data, pyStrip (splitextRoot "rose2.png".data))) :=
  ⟨⟨by decide, (classify_spec "nature-red rose.png".data).1 (by decide)⟩,
   ⟨by decide, (classify_spec "rose2.png".data).2 (by decide)⟩⟩

/-- Claim C1. Whenever the downloader gets past its argument and
username checks and both retrieval routes fail — the CLI invocation
raises (binary absent / timeout) or exits non-zero with the API fallback
also failing — the run writes exactly the placeholder file
'placeholder-rose.png' into the destination, records it with category
'nature' and keyword 'rose', removes its temp dir and exits with 0. -/
theorem download_placeholder_on_failure (argv : List (List Char))
    (user key : List Char) (env : DlEnv)
    (hargs : 3 ≤ argv.length) (huser : user ≠ [])
    (hmk : env.mkdirOk = true) (hcred : env.credWriteOk = true)
    (hfail : env.cliResult = none ∨
      ∃ rc, env.cliResult = some rc ∧ rc ≠ 0 ∧ env.apiOk = false) :
    (download_main argv user key env).exitCode = 0 ∧
    (download_main argv user key env).destFiles = ["placeholder-rose.png".data] ∧
    (download_main argv user key env).records
      = [⟨"placeholder-rose.png".data, "nature".data, "rose".data⟩] ∧
    (download_main argv user key env).tempsRemoved = 1 := by
  have h3 : ¬(argv.length < 3) := by omega
  rcases hfail with hnone | ⟨rc, hrc, hrc0, hapi⟩
  · simp [download_main, dlTempFiles, dlWarn, h3, huser, hmk, hcred, hnone,
      processFiles, placeholderRec]
  · simp [download_main, dlTempFiles, dlWarn, h3, huser, hmk, hcred, hrc,
      hrc0, hapi, processFiles, placeholderRec]

theorem download_placeholder_on_failure_witness :
    (download_main ["download_output.py".data, "rose-1730000000".data, "out".data]
        "alice".data "".data
        ⟨true, true, none, [], true, [], fun _ => true⟩).exitCode = 0 ∧
    (download_main ["download_output.py".data, "rose-1730000000".data, "out".data]
        "alice".data "".data
        ⟨true, true, none, [], true, [], fun _ => true⟩).destFiles
      = ["placeholder-rose.png".data] ∧
    (download_main ["download_output.py".data, "rose-1730000000".data, "out".data]
        "alice".data "".data
        ⟨true, true, none, [], true, [], fun _ => true⟩).records
      = [⟨"placeholder-rose.png".data, "nature".data, "rose".data⟩] ∧
    (download_main ["download_output.py".data, "rose-1730000000".data, "out".data]
        "alice".data "".data
        ⟨true, true, none, [], true, [], fun _ => true⟩).tempsRemoved = 1 :=
  download_placeholder_on_failure _ _ _ _
    (by decide) (by decide) rfl rfl (Or.inl rfl)

theorem processFiles_completes {copyOk : List Char → Bool}
    (h : ∀ f, copyOk f = true) (l : List (List Char)) :
    (processFiles copyOk l).2.2 = true := by
  induction l with
  | nil => rfl
  | cons f fs ih =>
    simp only [processFiles, h f]
    by_cases hf : isImageFile f = true
    · simp [hf, ih]
    · simp only [Bool.not_eq_true] at hf
      simp [hf, ih]

/-- Claim C6 counterexample. One concrete uploader invocation (valid
arguments and credentials, but `shutil.copy` of the CSV raises, e.g.
because the CSV path does not exist): the temp directory created by
`tempfile.mkdtemp()` is never removed and the process exits with 1. -/
theorem upload_leak_counterexample :
    (upload_main ["upload_dataset.py".data, "data.csv".data, "My Title".data]
        "alice".data "key1".data ⟨true, false, some 0, true, true⟩).tempsCreated = 1 ∧
    (upload_main ["upload_dataset.py".data, "data.csv".data, "My Title".data]
        "alice".data "key1".data ⟨true, false, some 0, true, true⟩).tempsRemoved = 0 ∧
    (upload_main ["upload_dataset.py".data, "data.csv".data, "My Title".data]
        "alice".data "key1".data ⟨true, false, some 0, true, true⟩).exitCode = 1 := by
  decide

/-- Claim C6 (amended). The downloader and the uploader remove every
temporary directory they create on all paths on which no exception
escapes to the outer handler after the directory is created: for the
downloader, whenever every destination copy succeeds (in particular on
the download-failure/placeholder fallback path); for the uploader,
whenever the CSV staging copy succeeds, the CLI subprocess returns an
exit code, and the fallback dataset-creation call does not raise. When
such an exception does occur the script exits 1 with the temp directory
left behind. -/
theorem temp_cleanup (argv argv2 : List (List Char)) (user key : List Char)
    (denv : DlEnv) (uenv : UpEnv)
    (hcopy : ∀ f, denv.copyOk f = true)
    (hcsv : uenv.csvCopyOk = true)
    (hcli : uenv.cliResult ≠ none)
    (hapi : uenv.apiCreateOk = true) :
    (download_main argv user key denv).tempsRemoved
      = (download_main argv user key denv).tempsCreated ∧
    (upload_main argv2 user key uenv).tempsRemoved
      = (upload_main argv2 user key uenv).tempsCreated := by
  constructor
  · simp only [download_main]
    repeat' split
    all_goals (try rfl)
    all_goals exact absurd (processFiles_completes hcopy (dlTempFiles denv)) (by assumption)
  · rcases hres : uenv.cliResult with _ | rc
    · exact absurd hres hcli
    · simp only [upload_main, hres]
      repeat' split
      all_goals (try rfl)
      all_goals first
        | exact absurd (hcsv.symm.trans (by assumption)) (by decide)
        | exact absurd (hapi.symm.trans (by assumption)) (by decide)

theorem temp_cleanup_witness :
    (download_main ["download_output.py".data, "rose-1".data, "out".data]
        "alice".data "key1".data
        ⟨true, true, none, [], true, [], fun _ => true⟩).tempsRemoved
      = (download_main ["download_output.py".data, "rose-1".data, "out".data]
          "alice".data "key1".data
          ⟨true, true, none, [], true, [], fun _ => true⟩).tempsCreated ∧
    (upload_main ["upload_dataset.py".data, "data.csv".data, "My Title".data]
        "alice".data "key1".data
        ⟨true, true, some 0, true, true⟩).tempsRemoved
      = (upload_main ["upload_dataset.py".data, "data.csv".data, "My Title".data]
          "alice".data "key1".data
          ⟨true, true, some 0, true, true⟩).tempsCreated :=
  temp_cleanup _ _ _ _ _ _ (fun _ => rfl) rfl (by simp) rfl

/-- Claim C7. Invoking any of the four CLI scripts with fewer than its
required positional arguments (two for the downloader and the uploader,
one for the run submitter and the status checker, plus the script name
at argv[0]) exits with status 1, writes a message to the error stream,
and creates nothing: no credentials file, no destination files, no
records, no staged folders, no temp directories. -/
theorem missing_args_spec (argv : List (List Char)) (user key : List Char)
    (denv : DlEnv) (uenv : UpEnv) (now : Nat) (cw : Bool) :
    (argv.length < 3 →
      (download_main argv user key denv).exitCode = 1 ∧
      (download_main argv user key denv).stderr ≠ [] ∧
      (download_main argv user key denv).credsWritten = false ∧
      (download_main argv user key denv).destFiles = [] ∧
      (download_main argv user key denv).records = [] ∧
      (download_main argv user key denv).tempsCreated = 0) ∧
    (argv.length < 3 →
      (upload_main argv user key uenv).exitCode = 1 ∧
      (upload_main argv user key uenv).stderr ≠ [] ∧
      (upload_main argv user key uenv).credsWritten = false ∧
      (upload_main argv user key uenv).stagedCsv = 0 ∧
      (upload_main argv user key uenv).publishedUrl = none ∧
      (upload_main argv user key uenv).tempsCreated = 0) ∧
    (argv.length < 2 →
      (run_notebook_main argv user key now cw).exitCode = 1 ∧
      (run_notebook_main argv user key now cw).stderr ≠ [] ∧
      (run_notebook_main argv user key now cw).credsWritten = false ∧
      (run_notebook_main argv user key now cw).runId = none ∧
      (run_notebook_main argv user key now cw).stdout = []) ∧
    (argv.length < 2 →
      (check_status_main argv user).exitCode = 1 ∧
      (check_status_main argv user).stderr ≠ [] ∧
      (check_status_main argv user).stdout = []) := by
  refine ⟨fun h => ?_, fun h => ?_, fun h => ?_, fun h => ?_⟩
  · simp [download_main, if_pos h]
  · simp [upload_main, if_pos h]
  · simp [run_notebook_main, if_pos h]
  · simp [check_status_main, if_pos h]

theorem missing_args_spec_witness :
    (["download_output.py".data].length < 3 ∧
      (download_main ["download_output.py".data] "alice".data "key1".data
          ⟨true, true, some 0, [], true, [], fun _ => true⟩).exitCode = 1 ∧
      (download_main ["download_output.py".data] "alice".data "key1".data
          ⟨true, true, some 0, [], true, [], fun _ => true⟩).tempsCreated = 0) ∧
    ((upload_main ["download_output.py".data] "alice".data "key1".data
          ⟨true, true, some 0, true, true⟩).exitCode = 1 ∧
      (upload_main ["download_output.py".data] "alice".data "key1".data
          ⟨true, true, some 0, true, true⟩).stagedCsv = 0) ∧
    ((run_notebook_main ["download_output.py".data] "alice".data "key1".data
          1730000000 true).exitCode = 1 ∧
      (run_notebook_main ["download_output.py".data] "alice".data "key1".data
          1730000000 true).credsWritten = false) ∧
    ((check_status_main ["download_output.py".data] "alice".data).exitCode = 1 ∧
      (check_status_main ["download_output.py".data] "alice".data).stdout = []) :=
  have h := missing_args_spec ["download_output.py".data] "alice".data
    "key1".data ⟨true, true, some 0, [], true, [], fun _ => true⟩
    ⟨true, true, some 0, true, true⟩ 1730000000 true
  ⟨⟨by decide, (h.1 (by decide)).1, (h.1 (by decide)).2.2.2.2.2⟩,
   ⟨(h.2.1 (by decide)).1, (h.2.1 (by decide)).2.2.2.1⟩,
   ⟨(h.2.2.1 (by decide)).1, (h.2.2.1 (by decide)).2.2.1⟩,
   ⟨(h.2.2.2 (by decide)).1, (h.2.2.2 (by decide)).2.2⟩⟩

/-- Claim C8. The status checker with at least one positional argument
prints the hardcoded completed status, progress 100, the note, the run
id and the constructed viewing URL, performs no remote call, writes
nothing to the error stream and exits 0; with the argument missing it
exits 1 with a message on the error stream and prints nothing. -/
theorem check_status_spec (argv : List (List Char)) (user : List Char) :
    (2 ≤ argv.length →
      (check_status_main argv user).exitCode = 0 ∧
      (check_status_main argv user).stderr = [] ∧
      (check_status_main argv user).remoteCalls = 0 ∧
      (check_status_main argv user).stdout =
        ["Status: completed".data,
         "Progress: 100".data,
         "Note: Automatic status checking is not available. Please verify notebook completion on Kaggle.".data,
         "Run ID: ".data ++ argv.getD 1 [],
         "Output URL: https://www.kaggle.com/code/".data ++ user ++ '/'
           :: notebook_slug (argv.getD 1 [])]) ∧
    (argv.length < 2 →
      (check_status_main argv user).exitCode = 1 ∧
      (check_status_main argv user).stderr ≠ [] ∧
      (check_status_main argv user).stdout = [] ∧
      (check_status_main argv user).remoteCalls = 0) := by
  constructor
  · intro h
    have h2 : ¬(argv.length < 2) := by omega
    simp [check_status_main, if_neg h2]
  · intro h
    simp [check_status_main, if_pos h]

theorem check_status_spec_witness :
    (2 ≤ (["check_status.py".data, "rose-1730000000".data]).length ∧
      (check_status_main ["check_status.py".data, "rose-1730000000".data]
          "alice".data).exitCode = 0 ∧
      (check_status_main ["check_status.py".data, "rose-1730000000".data]
          "alice".data).remoteCalls = 0 ∧
      (check_status_main ["check_status.py".data, "rose-1730000000".data]
          "alice".data).stdout =
        ["Status: completed".data,
         "Progress: 100".data,
         "Note: Automatic status checking is not available. Please verify notebook completion on Kaggle.".data,
         "Run ID: ".data ++ ["check_status.py".data, "rose-1730000000".data].getD 1 [],
         "Output URL: https://www.kaggle.com/code/".data ++ "alice".data ++ '/'
           :: notebook_slug (["check_status.py".data, "rose-1730000000".data].getD 1 [])]) ∧
    ((check_status_main ["check_status.py".data] "alice".data).exitCode = 1 ∧
      (check_status_main ["check_status.py".data] "alice".data).stderr ≠ []) :=
  have h1 := check_status_spec ["check_status.py".data, "rose-1730000000".data]
    "alice".data
  have h2 := check_status_spec ["check_status.py".data] "alice".data
  ⟨⟨by decide, (h1.1 (by decide)).1, (h1.1 (by decide)).2.2.1,
    (h1.1 (by decide)).2.2.2⟩,
   ⟨(h2.2 (by decide)).1, (h2.2 (by decide)).2.1⟩⟩

/-- Claim C9. Under a valid invocation the run submitter's reported run
identifier is exactly the notebook identifier, a hyphen, and the current
epoch time in whole seconds; consequently any two invocations in the
same second with the same notebook identifier — regardless of the other
argument or the credentials — report the identical run identifier. -/
theorem run_id_format (argv : List (List Char)) (user key : List Char)
    (now : Nat) (h2 : 2 ≤ argv.length) (hu : user ≠ []) (hk : key ≠ []) :
    (run_notebook_main argv user key now true).runId
      = some (argv.getD 1 [] ++ '-' :: pyStrNat now) ∧
    ∀ argv2 user2 key2, 2 ≤ argv2.length → user2 ≠ [] → key2 ≠ [] →
      argv2.getD 1 [] = argv.getD 1 [] →
      (run_notebook_main argv2 user2 key2 now true).runId
        = (run_notebook_main argv user key now true).runId := by
  have hl : ¬(argv.length < 2) := by omega
  have hc : ¬(user = [] ∨ key = []) := by
    rintro (h | h)
    · exact hu h
    · exact hk h
  constructor
  · simp [run_notebook_main, if_neg hl, if_neg hc]
  · intro argv2 user2 key2 h2' hu' hk' heq
    have hl' : ¬(argv2.length < 2) := by omega
    have hc' : ¬(user2 = [] ∨ key2 = []) := by
      rintro (h | h)
      · exact hu' h
      · exact hk' h
    simp only [run_notebook_main, if_neg hl, if_neg hc, if_neg hl', if_neg hc',
      Bool.false_eq_true, if_neg (by simp : ¬(true = false)), Option.some.injEq]
    rw [show argv2.getD 1 [] = argv.getD 1 [] from heq]

theorem run_id_format_witness :
    (run_notebook_main ["run_notebook.py".data, "plants".data]
        "alice".data "key1".data 1730000000 true).runId
      = some (["run_notebook.py".data, "plants".data].getD 1 []
          ++ '-' :: pyStrNat 1730000000) ∧
    (run_notebook_main ["run_notebook.py".data, "plants".data, "ds2".data]
        "bob".data "key2".data 1730000000 true).runId
      = (run_notebook_main ["run_notebook.py".data, "plants".data]
          "alice".data "key1".data 1730000000 true).runId :=
  have h := run_id_format ["run_notebook.py".data, "plants".data]
    "alice".data "key1".data 1730000000 (by decide) (by decide) (by decide)
  ⟨h.1,
   h.2 ["run_notebook.py".data, "plants".data, "ds2".data]
     "bob".data "key2".data (by decide) (by decide) (by decide) (by decide)⟩
